import Mathlib

/-!
# Coroutine benchmark: a shallow embedding of `coroutine3.cpp` and `coroutine2.cpp`

The two C++ programs are embedded as pure state-passing functions.

* `uint64_t` quantities are `Nat` with every addition and subtraction reduced
  modulo `2 ^ 64`; `unsigned int` quantities are `Nat` modulo `2 ^ 32`.
* The hardware cycle counter is an arbitrary sample stream `clk : Nat → Nat`;
  the `k`-th call of `RdtscClock::now()` returns `clk k % 2 ^ 64`, and the
  state records how many samples have been taken so far.
* A coroutine frame is a record holding the copied parameters, the locals that
  live across suspension points, the promise object and the suspension point
  the frame is parked at.  A coroutine handle is `Option` of a frame, `none`
  being the null handle.
* The workload values are `double`s in the source.  The drivers only ever pass
  `static_cast<double>(int)`, and on such inputs `n - 1.0`, `n - 2.0` and the
  comparison are exact, so the workload is embedded over `Int`.
-/

namespace Coroutine3

/-- Wrap-around bound of `uint64_t`. -/
def U64 : Nat := 18446744073709551616

/-- Unsigned 64-bit addition `a + b`. -/
def add64 (a b : Nat) : Nat := (a + b) % U64

/-- Unsigned 64-bit subtraction `a - b` (wraps below zero). -/
def sub64 (a b : Nat) : Nat := (a + U64 - b % U64) % U64

/-- Workload function `double fib(double n)`, lines 29-32. -/
def fib (n : Int) : Int :=
  if n ≤ 1 then n else fib (n - 1) + fib (n - 2)
termination_by n.toNat
decreasing_by
  all_goals simp_wf
  all_goals omega

/-- Process state of `coroutine3.cpp`: the number of cycle-counter samples taken
so far and the ten `thread_local` accumulators (lines 113-116 and 239-244). -/
structure World where
  tick : Nat
  g_coro_creation_overhead : Nat
  g_coro_destruction_overhead : Nat
  g_coro_count : Nat
  g_last_pure_compute_time : Nat
  g_resume_time : Nat
  g_yield_count : Nat
  g_resume_count : Nat
  g_gen_creation_overhead : Nat
  g_gen_destruction_overhead : Nat
  g_pure_compute_time : Nat
deriving DecidableEq, Repr

/-- Embeds `RdtscClock::now()`, lines 19-22: returns the next sample of the counter. -/
def now (clk : Nat → Nat) (w : World) : Nat × World :=
  (clk w.tick % U64, { w with tick := w.tick + 1 })

/-- Process state at program start: every `thread_local` accumulator is
zero-initialised and no sample has been taken. -/
def World.start : World :=
  { tick := 0, g_coro_creation_overhead := 0, g_coro_destruction_overhead := 0,
    g_coro_count := 0, g_last_pure_compute_time := 0, g_resume_time := 0,
    g_yield_count := 0, g_resume_count := 0, g_gen_creation_overhead := 0,
    g_gen_destruction_overhead := 0, g_pure_compute_time := 0 }

/-! ## Method 3: `Task` -/

/-- Suspension point a `fib_task` frame is parked at: the initial suspend
(body not started) or the final suspend (`handle.done()` is true). -/
inductive TaskPoint where
  | initial
  | final
deriving DecidableEq, Repr

/-- Coroutine frame of `fib_task`: the parameter copy `n`, the promise fields
`value` and `creation_start` (lines 120-121) and the suspension point. -/
structure TaskFrame where
  n : Int
  value : Int
  creation_start : Nat
  point : TaskPoint
deriving DecidableEq, Repr

/-- Embeds `std::coroutine_handle::done()` on a `fib_task` frame. -/
def TaskFrame.done (f : TaskFrame) : Bool :=
  match f.point with
  | .initial => false
  | .final => true

/-- Embeds `struct Task`, line 139: the only member is the handle. -/
structure Task where
  handle : Option TaskFrame
deriving DecidableEq, Repr

/-- Calling `fib_task(n)`: the promise constructor samples `creation_start`
(lines 123-125), `get_return_object` samples `t_end`, adds the difference to
`g_coro_creation_overhead`, increments `g_coro_count` (lines 127-132), and the
frame parks at `initial_suspend` (line 133) without running any body code. -/
def fib_task (clk : Nat → Nat) (w : World) (n : Int) : World × Task :=
  let (creation_start, w1) := now clk w
  let (t_end, w2) := now clk w1
  let w3 := { w2 with
    g_coro_creation_overhead := add64 w2.g_coro_creation_overhead (sub64 t_end creation_start)
    g_coro_count := add64 w2.g_coro_count 1 }
  (w3, { handle := some { n := n, value := 0, creation_start := creation_start,
                          point := .initial } })

/-- Embeds `handle.resume()` on a `fib_task` frame: the body of lines 165-173 followed
by `return_value` (line 135) and `final_suspend` (line 134).  Resuming a frame
already at its final suspend point is undefined; `Task::resume` never does it. -/
def fib_task_body (clk : Nat → Nat) (w : World) (f : TaskFrame) : World × TaskFrame :=
  match f.point with
  | .initial =>
    let (compute_start, w1) := now clk w
    let result := fib f.n
    let (compute_end, w2) := now clk w1
    let w3 := { w2 with g_last_pure_compute_time := sub64 compute_end compute_start }
    (w3, { f with value := result, point := .final })
  | .final => (w, f)

/-- Embeds `Task::resume()`, lines 156-160. -/
def Task.resume (clk : Nat → Nat) (w : World) (t : Task) : World × Task :=
  match t.handle with
  | none => (w, t)
  | some f =>
    if !f.done then
      let (w1, f1) := fib_task_body clk w f
      (w1, { handle := some f1 })
    else (w, t)

/-- Embeds `Task::result()`, line 162: `handle.promise().value`, read without any
check of the frame state.  `none` stands for the dereference of a null handle,
for which the source defines no value. -/
def Task.result (t : Task) : Option Int :=
  match t.handle with
  | none => none
  | some f => some f.value

/-- Move constructor `Task(Task&& other)`, lines 143-145: returns the new task
and the moved-from source. -/
def Task.move (other : Task) : Task × Task :=
  ({ handle := other.handle }, { handle := none })

/-- Destructor `~Task()`, lines 147-154. -/
def Task.destroy (clk : Nat → Nat) (w : World) (t : Task) : World :=
  match t.handle with
  | none => w
  | some _ =>
    let (t_start, w1) := now clk w
    let (t_end, w2) := now clk w1
    let w3 := { w2 with
      g_coro_destruction_overhead := add64 w2.g_coro_destruction_overhead (sub64 t_end t_start) }
    w3

/-! ## Method 4: `Generator` -/

/-- Suspension point a `fib_generator` frame is parked at: the initial suspend,
the `co_yield` of line 318, or the final suspend. -/
inductive GenPoint where
  | initial
  | yielded
  | final
deriving DecidableEq, Repr

/-- Coroutine frame of `fib_generator`: the parameter copies `n` and `count`,
the loop variable `i`, the promise fields `current_value` and `creation_start`
(lines 248-249) and the suspension point.  The loop variable is an `int` that
never exceeds `count`, so it is embedded without wrap-around. -/
structure GenFrame where
  n : Int
  count : Int
  i : Int
  current_value : Int
  creation_start : Nat
  point : GenPoint
deriving DecidableEq, Repr

/-- Embeds `std::coroutine_handle::done()` on a `fib_generator` frame. -/
def GenFrame.done (f : GenFrame) : Bool :=
  match f.point with
  | .initial => false
  | .yielded => false
  | .final => true

/-- Embeds `struct Generator`, line 274: the only member is the handle. -/
structure Generator where
  handle : Option GenFrame
deriving DecidableEq, Repr

/-- Calling `fib_generator(n, count)`: promise constructor (lines 251-253),
`get_return_object` (lines 255-259) and `initial_suspend` (line 261). -/
def fib_generator (clk : Nat → Nat) (w : World) (n : Int) (count : Int) : World × Generator :=
  let (creation_start, w1) := now clk w
  let (t_end, w2) := now clk w1
  let w3 := { w2 with
    g_gen_creation_overhead := add64 w2.g_gen_creation_overhead (sub64 t_end creation_start) }
  (w3, { handle := some { n := n, count := count, i := 0, current_value := 0,
                          creation_start := creation_start, point := .initial } })

/-- One pass of the loop of lines 313-319 from its condition `i < count`:
either the loop body runs up to the `co_yield` (with `yield_value`, lines
264-268), or the loop ends and the frame reaches `final_suspend`. -/
def fib_generator_loop (clk : Nat → Nat) (w : World) (f : GenFrame) : World × GenFrame :=
  if f.i < f.count then
    let (t_compute_start, w1) := now clk w
    let result := fib f.n
    let (t_compute_end, w2) := now clk w1
    let w3 := { w2 with
      g_pure_compute_time := add64 w2.g_pure_compute_time (sub64 t_compute_end t_compute_start) }
    let w4 := { w3 with g_yield_count := add64 w3.g_yield_count 1 }
    (w4, { f with current_value := result, point := .yielded })
  else
    (w, { f with point := .final })

/-- Embeds `handle.resume()` on a `fib_generator` frame.  From the initial suspend the
loop starts with `i = 0`; from the `co_yield` it continues with `++i`.
Resuming a frame at its final suspend point is undefined; `Generator::resume`
never does it. -/
def fib_generator_body (clk : Nat → Nat) (w : World) (f : GenFrame) : World × GenFrame :=
  match f.point with
  | .initial => fib_generator_loop clk w { f with i := 0 }
  | .yielded => fib_generator_loop clk w { f with i := f.i + 1 }
  | .final => (w, f)

/-- Embeds `Generator::resume()`, lines 291-301: new state and returned flag. -/
def Generator.resume (clk : Nat → Nat) (w : World) (g : Generator) :
    (World × Generator) × Bool :=
  match g.handle with
  | none => ((w, g), false)
  | some f =>
    if !f.done then
      let (t_start, w1) := now clk w
      let (w2, f1) := fib_generator_body clk w1 f
      let (t_end, w3) := now clk w2
      let w4 := { w3 with
        g_resume_time := add64 w3.g_resume_time (sub64 t_end t_start)
        g_resume_count := add64 w3.g_resume_count 1 }
      ((w4, { handle := some f1 }), !f1.done)
    else ((w, g), false)

/-- Embeds `Generator::value()`, lines 303-305; `none` for a null handle. -/
def Generator.value (g : Generator) : Option Int :=
  match g.handle with
  | none => none
  | some f => some f.current_value

/-- Embeds `Generator::done()`, lines 307-309; `none` for a null handle. -/
def Generator.done (g : Generator) : Option Bool :=
  match g.handle with
  | none => none
  | some f => some f.done

/-- Destructor `~Generator()`, lines 282-289. -/
def Generator.destroy (clk : Nat → Nat) (w : World) (g : Generator) : World :=
  match g.handle with
  | none => w
  | some _ =>
    let (t_start, w1) := now clk w
    let (t_end, w2) := now clk w1
    let w3 := { w2 with
      g_gen_destruction_overhead := add64 w2.g_gen_destruction_overhead (sub64 t_end t_start) }
    w3

/-- Frame of `fib_generator(n, count)` created in process state `w` once it is
parked at the `co_yield` with loop variable `i`. -/
def yieldedFrame (clk : Nat → Nat) (w : World) (n count i : Int) : GenFrame :=
  { n := n, count := count, i := i, current_value := fib n,
    creation_start := clk w.tick % U64, point := .yielded }

/-- State reached from `s` by `k` successive calls of `Generator::resume()`:
the `(k + 1)`-th call acts on the state the first `k` calls have left. -/
def resumes (clk : Nat → Nat) : Nat → World × Generator → World × Generator
  | 0, s => s
  | k + 1, s => (Generator.resume clk (resumes clk k s).1 (resumes clk k s).2).1

/-! ## Drivers -/

/-- Conversion of an `int` operand to `uint64_t` (usual arithmetic conversions
in `total_time / count`). -/
def toU64 (c : Int) : Nat := (c % (U64 : Int)).toNat

/-- Unsigned 64-bit division; `none` when the divisor is zero, for which the
source defines no value. -/
def div64 (a b : Nat) : Option Nat := if b = 0 then none else some (a / b)

/-- Loop state of `test_coroutines`: the process state and the two local
accumulators of lines 184-185. -/
structure CoroLoop where
  w : World
  total_resume_time : Nat
  total_pure_compute_time : Nat
deriving DecidableEq, Repr

/-- One iteration of the loop of `test_coroutines`, lines 189-200, including
the destruction of `task` at the end of the iteration scope.  The value read
by `task.result()` goes to a `volatile` local and is dropped. -/
def test_coroutines_step (clk : Nat → Nat) (n : Int) (s : CoroLoop) : CoroLoop :=
  let (w1, task) := fib_task clk s.w n
  let (t_resume_start, w2) := now clk w1
  let (w3, task1) := Task.resume clk w2 task
  let (t_resume_end, w4) := now clk w3
  let total_resume_time := add64 s.total_resume_time (sub64 t_resume_end t_resume_start)
  let total_pure_compute_time := add64 s.total_pure_compute_time w4.g_last_pure_compute_time
  let w5 := Task.destroy clk w4 task1
  { w := w5, total_resume_time := total_resume_time,
    total_pure_compute_time := total_pure_compute_time }

/-- The loop `for (int i = 0; i < count; ++i)` of line 188 run for `k`
iterations; the body does not read `i`. -/
def test_coroutines_loop (clk : Nat → Nat) (n : Int) : Nat → CoroLoop → CoroLoop
  | 0, s => s
  | k + 1, s => test_coroutines_loop clk n k (test_coroutines_step clk n s)

/-- Integer quantities printed by `test_coroutines`, lines 207-235. -/
structure CoroReport where
  total_time : Nat
  creation_overhead : Nat
  destruction_overhead : Nat
  total_resume_time : Nat
  total_pure_compute_time : Nat
  total_switch_overhead : Nat
  avg_per_task : Option Nat
  avg_creation : Option Nat
  avg_destruction : Option Nat
  avg_switch_overhead : Option Nat
deriving DecidableEq, Repr

/-- Driver `test_coroutines(n, count)`, lines 175-236: the report and the
process state when the function returns. -/
def test_coroutines (clk : Nat → Nat) (w : World) (n : Int) (count : Int) :
    CoroReport × World :=
  let w0 := { w with
    g_coro_creation_overhead := 0
    g_coro_destruction_overhead := 0
    g_coro_count := 0 }
  let (t_total_start, w1) := now clk w0
  let s := test_coroutines_loop clk n count.toNat
    { w := w1, total_resume_time := 0, total_pure_compute_time := 0 }
  let total_switch_overhead := sub64 s.total_resume_time s.total_pure_compute_time
  let (t_total_end, w2) := now clk s.w
  let total_time := sub64 t_total_end t_total_start
  ({ total_time := total_time
     creation_overhead := w2.g_coro_creation_overhead
     destruction_overhead := w2.g_coro_destruction_overhead
     total_resume_time := s.total_resume_time
     total_pure_compute_time := s.total_pure_compute_time
     total_switch_overhead := total_switch_overhead
     avg_per_task := div64 total_time (toU64 count)
     avg_creation := div64 w2.g_coro_creation_overhead (toU64 count)
     avg_destruction := div64 w2.g_coro_destruction_overhead (toU64 count)
     avg_switch_overhead := div64 total_switch_overhead (toU64 count) }, w2)

/-- Integer quantities printed by `test_coroutines_yield`, lines 348-378. -/
structure YieldReport where
  total_time : Nat
  creation_overhead : Nat
  destruction_overhead : Nat
  resume_time : Nat
  pure_compute_time : Nat
  total_switch_overhead : Nat
  avg_per_task : Option Nat
  resume_count : Nat
  avg_resume_time : Option Nat
  avg_pure_compute : Option Nat
  avg_switch_overhead : Option Nat
deriving DecidableEq, Repr

/-- Outcome of one run of `test_coroutines_yield`: what the report printed, the
process state at the moment the report reads the accumulators, and the process
state after the function has returned (the local `gen` is destroyed at the
closing brace of the function, line 379). -/
structure YieldRun where
  report : YieldReport
  atReport : World
  atExit : World
deriving DecidableEq, Repr

/-- Driver `test_coroutines_yield(n, count)`, lines 322-379.  The loop of lines
338-341 calls `gen.resume()` once per iteration and does not read `i`, so it is
`resumes` for `count` iterations (none when `count` is not positive); the value
read by `gen.value()` goes to a `volatile` local and is dropped. -/
def test_coroutines_yield (clk : Nat → Nat) (w : World) (n : Int) (count : Int) : YieldRun :=
  let w0 := { w with
    g_resume_time := 0
    g_pure_compute_time := 0
    g_yield_count := 0
    g_resume_count := 0
    g_gen_creation_overhead := 0
    g_gen_destruction_overhead := 0 }
  let (t_total_start, w1) := now clk w0
  let s := resumes clk count.toNat (fib_generator clk w1 n count)
  let (t_total_end, w2) := now clk s.1
  let total_time := sub64 t_total_end t_total_start
  let total_switch_overhead := sub64 w2.g_resume_time w2.g_pure_compute_time
  { report :=
      { total_time := total_time
        creation_overhead := w2.g_gen_creation_overhead
        destruction_overhead := w2.g_gen_destruction_overhead
        resume_time := w2.g_resume_time
        pure_compute_time := w2.g_pure_compute_time
        total_switch_overhead := total_switch_overhead
        avg_per_task := div64 total_time (toU64 count)
        resume_count := w2.g_resume_count
        avg_resume_time := div64 w2.g_resume_time w2.g_resume_count
        avg_pure_compute := div64 w2.g_pure_compute_time w2.g_resume_count
        avg_switch_overhead := div64 total_switch_overhead w2.g_resume_count }
    atReport := w2
    atExit := Generator.destroy clk w2 s.2 }

/-! ## Nanosecond metrics of the single-shot report, in exact arithmetic -/

/-- Calibration constant `CPU_FREQUENCY_GHZ = 2.8`, line 17, as a rational. -/
def CPU_FREQUENCY_GHZ : ℚ := 28 / 10

/-- Embeds `RdtscClock::to_ns`, lines 24-26, in exact rational arithmetic. -/
def to_ns (ticks : Nat) : ℚ := (ticks : ℚ) / CPU_FREQUENCY_GHZ

/-- The "Avg per task" nanosecond figure of `test_coroutines`, lines 226-227:
`to_ns(total_time / count)` with the unsigned integer division of the source. -/
def test_coroutines_avg_ns (total_time : Nat) (count : Int) : Option ℚ :=
  (div64 total_time (toU64 count)).map to_ns

/-- The "Throughput" figure of `test_coroutines`, lines 228-229:
`count * 1e9 / to_ns(total_time)` in exact rational arithmetic. -/
def test_coroutines_throughput (total_time : Nat) (count : Int) : ℚ :=
  (count : ℚ) * 1000000000 / to_ns total_time

end Coroutine3

namespace Coroutine2

/-- Wrap-around bound of `unsigned int`. -/
def U32 : Nat := 4294967296

/-- Suspension point an `iota` frame is parked at: the initial suspend, the
`co_yield` of line 89, or the final suspend. -/
inductive Point where
  | initial
  | yielded
  | final
deriving DecidableEq, Repr

/-- Coroutine frame of `iota`: the parameter `n` (an `unsigned int`, updated in
place), the promise field `current_value` (line 9, not initialised until the
first `yield_value`, hence `none` before it) and the suspension point. -/
structure Frame where
  n : Nat
  current_value : Option Nat
  point : Point
deriving DecidableEq, Repr

/-- Embeds `std::coroutine_handle::done()` on an `iota` frame. -/
def Frame.done (f : Frame) : Bool :=
  match f.point with
  | .initial => false
  | .yielded => false
  | .final => true

/-- Calling `iota(n)`, lines 87-90 with lines 11-15: the frame is created and
parks at the initial suspend. -/
def iota (n : Nat) : Frame :=
  { n := n % U32, current_value := none, point := .initial }

/-- Embeds `handle.resume()` on an `iota` frame: the next pass of `while (true)`
executes `n += 1234` and yields the new `n` (`yield_value`, lines 18-21).
Resuming a frame at its final suspend point is undefined: `none`. -/
def Frame.resume (f : Frame) : Option Frame :=
  match f.point with
  | .initial => some { n := (f.n + 1234) % U32, current_value := some ((f.n + 1234) % U32),
                       point := .yielded }
  | .yielded => some { n := (f.n + 1234) % U32, current_value := some ((f.n + 1234) % U32),
                       point := .yielded }
  | .final => none

/-- Frame reached from `f` by `k` successive `handle.resume()` calls. -/
def resumeN : Nat → Frame → Option Frame
  | 0, f => some f
  | k + 1, f => (resumeN k f).bind Frame.resume

/-- The `k`-th value of the sequence `iota(s)` as a consumer reads it from the
promise after the `k`-th resume; the 0-th is the start `s` itself. -/
def nthValue (s : Nat) : Nat → Option Nat
  | 0 => some (s % U32)
  | k + 1 => (resumeN (k + 1) (iota s)).bind Frame.current_value

/-- Embeds `generator::iterator`, lines 27-51.  Every iterator of the program holds a
copy of the one handle of `number_generator`, so only the flag is kept. -/
structure Iterator where
  done : Bool
deriving DecidableEq, Repr

/-- Result of the illustrative `main`: the values printed, in order, and the
number of `handle.resume()` calls made; or an undefined operation (resuming a
finished frame, reading a value never produced); or the step budget ran out. -/
inductive Outcome where
  | finished (printed : List Nat) (resume_calls : Nat)
  | undefined
  | outOfFuel
deriving DecidableEq, Repr

/-- Constructor `iterator(h, d)`, lines 31-36: new frame state, the iterator,
and the number of `handle.resume()` calls made (zero or one). -/
def Iterator.ctor (f : Frame) (d : Bool) : Option (Frame × Iterator × Nat) :=
  if !d then
    match f.resume with
    | none => none
    | some f1 => some (f1, { done := f1.done }, 1)
  else some (f, { done := d }, 0)

/-- Embeds `generator::begin()`, lines 53-55. -/
def begin_ (f : Frame) : Option (Frame × Iterator × Nat) := Iterator.ctor f false

/-- Embeds `generator::end()`, lines 57-59. -/
def end_ (f : Frame) : Option (Frame × Iterator × Nat) := Iterator.ctor f true

/-- Embeds `iterator::operator++`, lines 38-42. -/
def Iterator.next (f : Frame) (_it : Iterator) : Option (Frame × Iterator) :=
  match f.resume with
  | none => none
  | some f1 => some (f1, { done := f1.done })

/-- Embeds `iterator::operator!=`, lines 44-46. -/
def Iterator.ne (a b : Iterator) : Bool := a.done != b.done

/-- Embeds `iterator::operator*`, lines 48-50. -/
def Iterator.deref (f : Frame) (_it : Iterator) : Option Nat := f.current_value

/-- The range-for loop of `main`, lines 95-100, from its condition
`it != end`; `fuel` bounds the number of loop passes. -/
def main_loop : Nat → Frame → Iterator → Iterator → List Nat → Nat → Outcome
  | 0, _, _, _, _, _ => .outOfFuel
  | fuel + 1, f, it, e, printed, calls =>
    if it.ne e then
      match it.deref f with
      | none => .undefined
      | some num =>
        if num > 5000 then .finished (printed ++ [num]) calls
        else
          match it.next f with
          | none => .undefined
          | some (f1, it1) => main_loop fuel f1 it1 e (printed ++ [num]) (calls + 1)
    else .finished printed calls

/-- Program `main`, lines 92-102: `number_generator = iota(0)`, then the
range-for loop, whose `begin()` is evaluated before its `end()`. -/
def main (fuel : Nat) : Outcome :=
  match begin_ (iota 0) with
  | none => .undefined
  | some (f1, it, c1) =>
    match end_ f1 with
    | none => .undefined
    | some (f2, e, c2) => main_loop fuel f2 it e [] (c1 + c2)

end Coroutine2

/-! # Properties -/

namespace Coroutine3

/-! ## Arithmetic helpers -/

theorem sub64_of_le (a b : Nat) (hab : b ≤ a) (ha : a < U64) : sub64 a b = a - b := by
  unfold sub64 U64 at *
  omega

/-! ## Deferred computation (`Task`) -/

/-- C2: a Task built by `fib_task(n)` starts suspended — right after construction
the frame is parked at the initial suspend (not done), the stored value is still
the initial 0, `g_last_pure_compute_time` is unchanged and only the two creation
samples have been taken — and after exactly one `resume()` the frame is done and
`result()` equals `fib(n)`. -/
theorem fib_task_starts_suspended_and_completes_on_one_resume
    (clk : Nat → Nat) (w : World) (n : Int) :
    (fib_task clk w n).2.handle =
        some { n := n, value := 0, creation_start := clk w.tick % U64, point := .initial } ∧
      (fib_task clk w n).2.handle.map TaskFrame.done = some false ∧
      Task.result (fib_task clk w n).2 = some 0 ∧
      (fib_task clk w n).1.g_last_pure_compute_time = w.g_last_pure_compute_time ∧
      (fib_task clk w n).1.tick = w.tick + 2 ∧
      (Task.resume clk (fib_task clk w n).1 (fib_task clk w n).2).2.handle.map TaskFrame.done
        = some true ∧
      Task.result (Task.resume clk (fib_task clk w n).1 (fib_task clk w n).2).2
        = some (fib n) := by
  simp [fib_task, now, Task.resume, Task.result, TaskFrame.done, fib_task_body]

/-- C3 (counterexample): read before completion, `result()` of a freshly built
Task is not an error; it returns the value 0 although the frame is not done. -/
theorem Task_result_before_completion_returns_a_value :
    (fib_task (fun i => i) World.start 5).2.handle.map TaskFrame.done = some false ∧
      Task.result (fib_task (fun i => i) World.start 5).2 = some 0 ∧
      Task.result (fib_task (fun i => i) World.start 5).2 ≠ none := by
  decide

/-- C3 (amended): `Task::result()` makes no completion check; it returns the
value the promise currently stores.  On every Task built by `fib_task` and not
yet resumed, the frame is not done and `result()` returns the promise's initial
value 0 instead of failing; once one `resume()` has completed the frame,
`result()` returns `fib(n)`. -/
theorem Task_result_reads_promise_without_check
    (clk : Nat → Nat) (w : World) (n : Int) :
    (fib_task clk w n).2.handle.map TaskFrame.done = some false ∧
      Task.result (fib_task clk w n).2 = some 0 ∧
      (Task.resume clk (fib_task clk w n).1 (fib_task clk w n).2).2.handle.map TaskFrame.done
        = some true ∧
      Task.result (Task.resume clk (fib_task clk w n).1 (fib_task clk w n).2).2
        = some (fib n) := by
  simp [fib_task, now, Task.resume, Task.result, TaskFrame.done, fib_task_body]

/-- C4: `Task::resume()` is a no-op on an empty or already-completed instance:
with a null handle (in particular on a moved-from Task) or with a done frame,
the process state (all accumulators and the sample count) and the Task are
returned unchanged; hence resuming a fresh Task twice gives the same state as
resuming it once. -/
theorem Task_resume_noop_on_done_or_empty (clk : Nat → Nat) :
    (∀ (w : World) (t : Task), t.handle = none → Task.resume clk w t = (w, t)) ∧
      (∀ (w : World) (t : Task) (f : TaskFrame), t.handle = some f → f.done = true →
        Task.resume clk w t = (w, t)) ∧
      (∀ (w : World) (t : Task),
        Task.resume clk w (Task.move t).2 = (w, (Task.move t).2)) ∧
      (∀ (w : World) (n : Int),
        Task.resume clk (Task.resume clk (fib_task clk w n).1 (fib_task clk w n).2).1
            (Task.resume clk (fib_task clk w n).1 (fib_task clk w n).2).2
          = Task.resume clk (fib_task clk w n).1 (fib_task clk w n).2) := by
  refine ⟨?_, ?_, ?_, ?_⟩
  · intro w t h
    simp [Task.resume, h]
  · intro w t f h hd
    simp [Task.resume, h, hd]
  · intro w t
    simp [Task.resume, Task.move]
  · intro w n
    simp [fib_task, now, Task.resume, TaskFrame.done, fib_task_body]

/-- C4 (witness): the no-op at a null handle and at a completed frame. -/
theorem Task_resume_noop_on_done_or_empty_witness :
    Task.resume (fun i => i) World.start { handle := none }
        = (World.start, { handle := none }) ∧
      Task.resume (fun i => i) World.start
          { handle := some { n := 5, value := 5, creation_start := 0, point := .final } }
        = (World.start,
            { handle := some { n := 5, value := 5, creation_start := 0, point := .final } }) :=
  ⟨(Task_resume_noop_on_done_or_empty (fun i => i)).1 World.start { handle := none } rfl,
   (Task_resume_noop_on_done_or_empty (fun i => i)).2.1 World.start
      { handle := some { n := 5, value := 5, creation_start := 0, point := .final } }
      { n := 5, value := 5, creation_start := 0, point := .final } rfl rfl⟩

/-! ## Lazy sequence (`Generator`): single resume steps -/

theorem resume_initial_pos (clk : Nat → Nat) (w : World) (f : GenFrame)
    (hp : f.point = .initial) (hc : 0 < f.count) :
    (Generator.resume clk w { handle := some f }).1.2 =
        { handle := some { f with i := 0, current_value := fib f.n, point := .yielded } } ∧
      (Generator.resume clk w { handle := some f }).2 = true ∧
      (Generator.resume clk w { handle := some f }).1.1.g_yield_count
        = add64 w.g_yield_count 1 ∧
      (Generator.resume clk w { handle := some f }).1.1.g_resume_count
        = add64 w.g_resume_count 1 ∧
      (Generator.resume clk w { handle := some f }).1.1.tick = w.tick + 4 := by
  simp [Generator.resume, GenFrame.done, fib_generator_body, fib_generator_loop, now, hp, hc]

theorem resume_yielded_lt (clk : Nat → Nat) (w : World) (f : GenFrame)
    (hp : f.point = .yielded) (hc : f.i + 1 < f.count) :
    (Generator.resume clk w { handle := some f }).1.2 =
        { handle := some { f with i := f.i + 1, current_value := fib f.n, point := .yielded } } ∧
      (Generator.resume clk w { handle := some f }).2 = true ∧
      (Generator.resume clk w { handle := some f }).1.1.g_yield_count
        = add64 w.g_yield_count 1 ∧
      (Generator.resume clk w { handle := some f }).1.1.g_resume_count
        = add64 w.g_resume_count 1 ∧
      (Generator.resume clk w { handle := some f }).1.1.tick = w.tick + 4 := by
  simp [Generator.resume, GenFrame.done, fib_generator_body, fib_generator_loop, now, hp, hc]

theorem resume_initial_nonpos (clk : Nat → Nat) (w : World) (f : GenFrame)
    (hp : f.point = .initial) (hc : ¬ 0 < f.count) :
    (Generator.resume clk w { handle := some f }).1.2 =
        { handle := some { f with i := 0, point := .final } } ∧
      (Generator.resume clk w { handle := some f }).2 = false := by
  simp [Generator.resume, GenFrame.done, fib_generator_body, fib_generator_loop, now, hp, hc]

theorem resume_yielded_ge (clk : Nat → Nat) (w : World) (f : GenFrame)
    (hp : f.point = .yielded) (hc : ¬ f.i + 1 < f.count) :
    (Generator.resume clk w { handle := some f }).1.2 =
        { handle := some { f with i := f.i + 1, point := .final } } ∧
      (Generator.resume clk w { handle := some f }).2 = false := by
  simp [Generator.resume, GenFrame.done, fib_generator_body, fib_generator_loop, now, hp, hc]

theorem resumes_succ (clk : Nat → Nat) (k : Nat) (s : World × Generator) :
    resumes clk (k + 1) s
      = (Generator.resume clk (resumes clk k s).1 (resumes clk k s).2).1 := rfl

theorem fib_generator_fresh (clk : Nat → Nat) (w : World) (n count : Int) :
    (fib_generator clk w n count).2 =
        { handle := some { n := n, count := count, i := 0, current_value := 0,
                           creation_start := clk w.tick % U64, point := .initial } } ∧
      (fib_generator clk w n count).1.g_yield_count = w.g_yield_count ∧
      (fib_generator clk w n count).1.g_resume_count = w.g_resume_count ∧
      (fib_generator clk w n count).1.tick = w.tick + 2 := by
  simp [fib_generator, now]

/-- After `k + 1 ≤ N` resumes the frame of `fib_generator(n, N)` is parked at the
`co_yield` with loop variable `k`, holding `fib n`, and both counters have been
incremented `k + 1` times. -/
theorem resumes_fresh (clk : Nat → Nat) (w : World) (n : Int) (N : Nat) (k : Nat)
    (hk : k < N) :
    (resumes clk (k + 1) (fib_generator clk w n N)).2 =
        { handle := some (yieldedFrame clk w n N k) } ∧
      (resumes clk (k + 1) (fib_generator clk w n N)).1.g_yield_count
        = (w.g_yield_count + (k + 1)) % U64 ∧
      (resumes clk (k + 1) (fib_generator clk w n N)).1.g_resume_count
        = (w.g_resume_count + (k + 1)) % U64 ∧
      (resumes clk (k + 1) (fib_generator clk w n N)).1.tick = w.tick + 2 + 4 * (k + 1) := by
  induction k with
  | zero =>
    have h := resume_initial_pos clk (fib_generator clk w n N).1
      { n := n, count := N, i := 0, current_value := 0,
        creation_start := clk w.tick % U64, point := .initial } rfl (by simp; omega)
    rw [resumes_succ]
    simp only [resumes]
    rw [(fib_generator_fresh clk w n N).1]
    refine ⟨?_, ?_, ?_, ?_⟩
    · rw [h.1]; simp [yieldedFrame]
    · rw [h.2.2.1, (fib_generator_fresh clk w n N).2.1]; simp [add64]
    · rw [h.2.2.2.1, (fib_generator_fresh clk w n N).2.2.1]; simp [add64]
    · rw [h.2.2.2.2, (fib_generator_fresh clk w n N).2.2.2]
  | succ k ih =>
    have ih' := ih (by omega)
    rw [resumes_succ, ih'.1]
    have h := resume_yielded_lt clk (resumes clk (k + 1) (fib_generator clk w n N)).1
      (yieldedFrame clk w n N k) rfl (by simp [yieldedFrame]; omega)
    refine ⟨?_, ?_, ?_, ?_⟩
    · rw [h.1]; simp [yieldedFrame]
    · rw [h.2.2.1, ih'.2.1]; unfold add64 U64; omega
    · rw [h.2.2.2.1, ih'.2.2.1]; unfold add64 U64; omega
    · rw [h.2.2.2.2, ih'.2.2.2]; omega

/-- The `(k + 1)`-th resume of `fib_generator(n, N)` returns true when `k < N`. -/
theorem resume_returns_true (clk : Nat → Nat) (w : World) (n : Int) (N : Nat) (k : Nat)
    (hk : k < N) :
    (Generator.resume clk (resumes clk k (fib_generator clk w n N)).1
      (resumes clk k (fib_generator clk w n N)).2).2 = true := by
  cases k with
  | zero =>
    simp only [resumes]
    rw [(fib_generator_fresh clk w n N).1]
    exact (resume_initial_pos clk _ _ rfl (by simp; omega)).2.1
  | succ j =>
    rw [(resumes_fresh clk w n N j (by omega)).1]
    exact (resume_yielded_lt clk _ _ rfl (by simp [yieldedFrame]; omega)).2.1

/-- The `(N + 1)`-th resume of `fib_generator(n, N)` returns false and leaves the
frame at its final suspend point. -/
theorem resume_after_last (clk : Nat → Nat) (w : World) (n : Int) (N : Nat) :
    (Generator.resume clk (resumes clk N (fib_generator clk w n N)).1
        (resumes clk N (fib_generator clk w n N)).2).2 = false ∧
      Generator.done (resumes clk (N + 1) (fib_generator clk w n N)).2 = some true := by
  rw [resumes_succ]
  cases N with
  | zero =>
    simp only [resumes]
    rw [(fib_generator_fresh clk w n _).1]
    have h := resume_initial_nonpos clk (fib_generator clk w n (0 : Nat)).1
      { n := n, count := ((0 : Nat) : Int), i := 0, current_value := 0,
        creation_start := clk w.tick % U64, point := .initial } rfl (by simp)
    refine ⟨h.2, ?_⟩
    rw [h.1]
    rfl
  | succ M =>
    rw [(resumes_fresh clk w n (M + 1) M (by omega)).1]
    have h := resume_yielded_ge clk (resumes clk (M + 1) (fib_generator clk w n (M + 1 : Nat))).1
      (yieldedFrame clk w n (M + 1 : Nat) M) rfl (by simp [yieldedFrame])
    refine ⟨h.2, ?_⟩
    rw [h.1]
    rfl

/-- The frame is not done after any `j ≤ N` resumes. -/
theorem not_done_upto (clk : Nat → Nat) (w : World) (n : Int) (N : Nat) (j : Nat)
    (hj : j ≤ N) :
    Generator.done (resumes clk j (fib_generator clk w n N)).2 = some false := by
  cases j with
  | zero =>
    simp only [resumes]
    rw [(fib_generator_fresh clk w n N).1]
    rfl
  | succ i =>
    rw [(resumes_fresh clk w n N i (by omega)).1]
    rfl

/-- C1: the bounded sequence `fib_generator(n, N)` produces exactly `N` values.
For each `k` with `1 ≤ k ≤ N` the `k`-th `resume()` returns true, leaves `done()`
false and `value()` equal to `fib(n)`, and has incremented the yield counter `k`
times (so the counter equals `k` when it was zero at creation); the `(N+1)`-th
`resume()` returns false and is the first after which `done()` is true. -/
theorem fib_generator_produces_exactly_N (clk : Nat → Nat) (w : World) (n : Int) (N : Nat)
    (hN : (N : Int) ≤ 2147483647) :
    (∀ k : Nat, 1 ≤ k → k ≤ N →
        (Generator.resume clk (resumes clk (k - 1) (fib_generator clk w n N)).1
            (resumes clk (k - 1) (fib_generator clk w n N)).2).2 = true ∧
          Generator.done (resumes clk k (fib_generator clk w n N)).2 = some false ∧
          Generator.value (resumes clk k (fib_generator clk w n N)).2 = some (fib n) ∧
          (resumes clk k (fib_generator clk w n N)).1.g_yield_count
            = (w.g_yield_count + k) % U64 ∧
          (w.g_yield_count = 0 →
            (resumes clk k (fib_generator clk w n N)).1.g_yield_count = k)) ∧
      (Generator.resume clk (resumes clk N (fib_generator clk w n N)).1
          (resumes clk N (fib_generator clk w n N)).2).2 = false ∧
      Generator.done (resumes clk (N + 1) (fib_generator clk w n N)).2 = some true ∧
      (∀ j : Nat, j ≤ N →
        Generator.done (resumes clk j (fib_generator clk w n N)).2 = some false) := by
  refine ⟨?_, (resume_after_last clk w n N).1, (resume_after_last clk w n N).2,
    fun j hj => not_done_upto clk w n N j hj⟩
  intro k hk1 hkN
  obtain ⟨j, rfl⟩ : ∃ j, k = j + 1 := ⟨k - 1, by omega⟩
  have hf := resumes_fresh clk w n N j (by omega)
  refine ⟨?_, not_done_upto clk w n N (j + 1) hkN, ?_, hf.2.1, ?_⟩
  · simpa using resume_returns_true clk w n N j (by omega)
  · rw [hf.1]
    rfl
  · intro h0
    rw [hf.2.1, h0]
    unfold U64
    omega

/-- C1 (witness): batch size 3, workload input 5, second and fourth resume. -/
theorem fib_generator_produces_exactly_N_witness :
    (Generator.resume (fun i => i)
          (resumes (fun i => i) (2 - 1) (fib_generator (fun i => i) World.start 5 (3 : Nat))).1
          (resumes (fun i => i) (2 - 1) (fib_generator (fun i => i) World.start 5 (3 : Nat))).2).2
        = true ∧
      Generator.done
          (resumes (fun i => i) 2 (fib_generator (fun i => i) World.start 5 (3 : Nat))).2
        = some false ∧
      Generator.value
          (resumes (fun i => i) 2 (fib_generator (fun i => i) World.start 5 (3 : Nat))).2
        = some (fib 5) ∧
      Generator.done
          (resumes (fun i => i) (3 + 1) (fib_generator (fun i => i) World.start 5 (3 : Nat))).2
        = some true :=
  ⟨((fib_generator_produces_exactly_N (fun i => i) World.start 5 3 (by decide)).1 2
      (by decide) (by decide)).1,
   ((fib_generator_produces_exactly_N (fun i => i) World.start 5 3 (by decide)).1 2
      (by decide) (by decide)).2.1,
   ((fib_generator_produces_exactly_N (fun i => i) World.start 5 3 (by decide)).1 2
      (by decide) (by decide)).2.2.1,
   (fib_generator_produces_exactly_N (fun i => i) World.start 5 3 (by decide)).2.2.1⟩

/-! ## Sequence driver: what the report reads -/

/-- The method `Generator::resume()` never writes the creation or destruction accumulator
and never clears the handle. -/
theorem resume_keeps_overheads (clk : Nat → Nat) (w : World) (g : Generator) :
    (Generator.resume clk w g).1.1.g_gen_destruction_overhead
        = w.g_gen_destruction_overhead ∧
      (Generator.resume clk w g).1.1.g_gen_creation_overhead = w.g_gen_creation_overhead ∧
      (Generator.resume clk w g).1.2.handle.isSome = g.handle.isSome := by
  rcases g with ⟨_ | f⟩
  · simp [Generator.resume]
  · rcases f with ⟨n, c, i, v, cs, p⟩
    cases p <;>
      simp [Generator.resume, GenFrame.done, fib_generator_body, fib_generator_loop, now] <;>
      split <;> simp

theorem resumes_keep_overheads (clk : Nat → Nat) (k : Nat) (s : World × Generator) :
    (resumes clk k s).1.g_gen_destruction_overhead = s.1.g_gen_destruction_overhead ∧
      (resumes clk k s).1.g_gen_creation_overhead = s.1.g_gen_creation_overhead ∧
      (resumes clk k s).2.handle.isSome = s.2.handle.isSome := by
  induction k with
  | zero => simp [resumes]
  | succ k ih =>
    rw [resumes_succ]
    have h := resume_keeps_overheads clk (resumes clk k s).1 (resumes clk k s).2
    exact ⟨h.1.trans ih.1, h.2.1.trans ih.2.1, h.2.2.trans ih.2.2⟩

theorem destroy_live (clk : Nat → Nat) (w : World) (g : Generator)
    (h : g.handle.isSome = true) :
    (Generator.destroy clk w g).g_gen_destruction_overhead
      = add64 w.g_gen_destruction_overhead
          (sub64 (clk (w.tick + 1) % U64) (clk w.tick % U64)) := by
  rcases g with ⟨_ | f⟩
  · simp at h
  · simp [Generator.destroy, now]

/-- In every run of `test_coroutines_yield` the destruction accumulator is still
zero when the report reads it, and receives the release time of `gen` only when
the function returns; the creation accumulator already holds the one creation
measurement when the report reads it. -/
theorem yield_run_overheads (clk : Nat → Nat) (w : World) (n count : Int) :
    (test_coroutines_yield clk w n count).report.destruction_overhead = 0 ∧
      (test_coroutines_yield clk w n count).atReport.g_gen_destruction_overhead = 0 ∧
      (test_coroutines_yield clk w n count).atExit.g_gen_destruction_overhead
        = sub64 (clk ((test_coroutines_yield clk w n count).atReport.tick + 1) % U64)
            (clk (test_coroutines_yield clk w n count).atReport.tick % U64) ∧
      (test_coroutines_yield clk w n count).report.creation_overhead
        = sub64 (clk (w.tick + 2) % U64) (clk (w.tick + 1) % U64) := by
  have hk := fun w1 => resumes_keep_overheads clk count.toNat (fib_generator clk w1 n count)
  have hd : ∀ w1 : World, w1.g_gen_destruction_overhead = 0 →
      (resumes clk count.toNat (fib_generator clk w1 n count)).1.g_gen_destruction_overhead
        = 0 := by
    intro w1 h1
    rw [(hk w1).1]
    simpa [fib_generator, now] using h1
  have hs : ∀ w1 : World,
      (resumes clk count.toNat (fib_generator clk w1 n count)).2.handle.isSome = true := by
    intro w1
    rw [(hk w1).2.2]
    simp [fib_generator, now]
  refine ⟨?_, ?_, ?_, ?_⟩
  · simp only [test_coroutines_yield, now]
    exact hd _ rfl
  · simp only [test_coroutines_yield, now]
    exact hd _ rfl
  · simp only [test_coroutines_yield, now]
    rw [destroy_live clk _ _ (hs _)]
    dsimp only
    rw [hd _ rfl]
    simp [add64, sub64, Nat.mod_mod]
  · simp only [test_coroutines_yield, now]
    rw [(hk _).2.1]
    simp [fib_generator, now, add64, sub64]

theorem toU64_natCast (N : Nat) (hN : (N : Int) ≤ 2147483647) : toU64 (N : Int) = N := by
  unfold toU64 U64
  omega

/-- State of the counters when the report of `test_coroutines_yield(n, N)` is
computed, for a positive batch size `N`. -/
theorem yield_run_counts (clk : Nat → Nat) (w : World) (n : Int) (N : Nat) (hN : 1 ≤ N) :
    (test_coroutines_yield clk w n N).atReport.g_resume_count = N % U64 ∧
      (test_coroutines_yield clk w n N).atReport.g_yield_count = N % U64 ∧
      (test_coroutines_yield clk w n N).atReport.tick = w.tick + 4 + 4 * N := by
  obtain ⟨k, rfl⟩ : ∃ k, N = k + 1 := ⟨N - 1, by omega⟩
  have h := fun w1 => resumes_fresh clk w1 n (k + 1) k (by omega)
  simp only [test_coroutines_yield, now, Int.toNat_ofNat]
  refine ⟨?_, ?_, ?_⟩
  · rw [(h _).2.2.1]
    simp
  · rw [(h _).2.1]
    simp
  · rw [(h _).2.2.2]
    dsimp only
    omega

/-- C7 (code evaluated at the call made by `main`): in
`test_coroutines_yield(25, 1000)` the destruction overhead the report reads is
0 — the destructor of `gen` has not run yet — while creation overhead has
already been added once (7 ticks on a clock advancing 7 ticks per sample); the
release time of `gen` (7 ticks) reaches the accumulator only at function exit. -/
theorem yield_report_reads_destruction_overhead_before_release :
    (test_coroutines_yield (fun i => 7 * i) World.start 25 1000).report.destruction_overhead
        = 0 ∧
      (test_coroutines_yield (fun i => 7 * i) World.start 25 1000).report.creation_overhead
        = 7 ∧
      (test_coroutines_yield (fun i => 7 * i) World.start 25 1000).atExit.g_gen_destruction_overhead
        = 7 := by
  have h := yield_run_overheads (fun i => 7 * i) World.start 25 1000
  have ht := (yield_run_counts (fun i => 7 * i) World.start 25 1000 (by decide)).2.2
  refine ⟨h.1, ?_, ?_⟩
  · rw [h.2.2.2]
    decide
  · have h3 := h.2.2.1
    rw [show ((1000 : Int)) = ((1000 : Nat) : Int) from rfl] at h3
    rw [ht] at h3
    rw [show ((1000 : Int)) = ((1000 : Nat) : Int) from rfl, h3]
    decide

/-- C10: in `test_coroutines_yield`, for every batch size `N ≥ 1` the resume
counter and the yield counter both equal `N` when the report is computed, so
every integer average (by resume count or by batch size) has a non-zero divisor
and is defined; for `N = 0` the resume count is 0 and
`g_resume_time / g_resume_count` is a division by zero. -/
theorem yield_driver_resume_count_is_batch_size (clk : Nat → Nat) (w : World) (n : Int) :
    (∀ N : Nat, 1 ≤ N → (N : Int) ≤ 2147483647 →
        (test_coroutines_yield clk w n N).atReport.g_resume_count = N ∧
          (test_coroutines_yield clk w n N).atReport.g_yield_count = N ∧
          (test_coroutines_yield clk w n N).report.resume_count = N ∧
          (test_coroutines_yield clk w n N).report.avg_resume_time
            = some ((test_coroutines_yield clk w n N).report.resume_time / N) ∧
          (test_coroutines_yield clk w n N).report.avg_pure_compute
            = some ((test_coroutines_yield clk w n N).report.pure_compute_time / N) ∧
          (test_coroutines_yield clk w n N).report.avg_switch_overhead
            = some ((test_coroutines_yield clk w n N).report.total_switch_overhead / N) ∧
          (test_coroutines_yield clk w n N).report.avg_per_task
            = some ((test_coroutines_yield clk w n N).report.total_time / N)) ∧
      ((test_coroutines_yield clk w n 0).atReport.g_resume_count = 0 ∧
        (test_coroutines_yield clk w n 0).report.resume_count = 0 ∧
        (test_coroutines_yield clk w n 0).report.avg_resume_time = none) := by
  constructor
  · intro N h1 hN
    have hc := yield_run_counts clk w n N h1
    have hlt : N % U64 = N := Nat.mod_eq_of_lt (by unfold U64; omega)
    have hr : (test_coroutines_yield clk w n N).atReport.g_resume_count = N := by
      rw [hc.1, hlt]
    have hy : (test_coroutines_yield clk w n N).atReport.g_yield_count = N := by
      rw [hc.2.1, hlt]
    have hrep : (test_coroutines_yield clk w n N).report.resume_count
        = (test_coroutines_yield clk w n N).atReport.g_resume_count := rfl
    have hne : N ≠ 0 := by omega
    refine ⟨hr, hy, hrep.trans hr, ?_, ?_, ?_, ?_⟩
    · have : (test_coroutines_yield clk w n N).report.avg_resume_time
          = div64 (test_coroutines_yield clk w n N).report.resume_time
              (test_coroutines_yield clk w n N).atReport.g_resume_count := rfl
      rw [this, hr]
      simp [div64, hne]
    · have : (test_coroutines_yield clk w n N).report.avg_pure_compute
          = div64 (test_coroutines_yield clk w n N).report.pure_compute_time
              (test_coroutines_yield clk w n N).atReport.g_resume_count := rfl
      rw [this, hr]
      simp [div64, hne]
    · have : (test_coroutines_yield clk w n N).report.avg_switch_overhead
          = div64 (test_coroutines_yield clk w n N).report.total_switch_overhead
              (test_coroutines_yield clk w n N).atReport.g_resume_count := rfl
      rw [this, hr]
      simp [div64, hne]
    · have : (test_coroutines_yield clk w n N).report.avg_per_task
          = div64 (test_coroutines_yield clk w n N).report.total_time (toU64 (N : Int)) := rfl
      rw [this, toU64_natCast N hN]
      simp [div64, hne]
  · simp [test_coroutines_yield, now, resumes, fib_generator, div64]

/-- C10 (witness): batch size 3. -/
theorem yield_driver_resume_count_is_batch_size_witness :
    (test_coroutines_yield (fun i => 7 * i) World.start 5 (3 : Nat)).atReport.g_resume_count
        = 3 ∧
      (test_coroutines_yield (fun i => 7 * i) World.start 5 (3 : Nat)).atReport.g_yield_count
        = 3 :=
  ⟨((yield_driver_resume_count_is_batch_size (fun i => 7 * i) World.start 5).1 3
      (by decide) (by decide)).1,
   ((yield_driver_resume_count_is_batch_size (fun i => 7 * i) World.start 5).1 3
      (by decide) (by decide)).2.1⟩

/-! ## Resume time against pure-compute time -/

/-- A compute window `[b, c]` nested in a resume window `[a, d]`: adding the two
window lengths keeps the compute sum below the resume sum, and the resume sum
below the last sample. -/
theorem nested_window (P R a b c d : Nat) (hab : a ≤ b) (hbc : b ≤ c) (hcd : c ≤ d)
    (hd : d < U64) (hPR : P ≤ R) (hRa : R ≤ a) :
    add64 P (sub64 (c % U64) (b % U64)) ≤ add64 R (sub64 (d % U64) (a % U64)) ∧
      add64 R (sub64 (d % U64) (a % U64)) ≤ d := by
  unfold add64 sub64 U64 at *
  omega

/-- A resume window `[a, d]` without compute window. -/
theorem empty_window (P R a d : Nat) (had : a ≤ d) (hd : d < U64) (hPR : P ≤ R)
    (hRa : R ≤ a) :
    P ≤ add64 R (sub64 (d % U64) (a % U64)) ∧ add64 R (sub64 (d % U64) (a % U64)) ≤ d := by
  unfold add64 sub64 U64 at *
  omega

/-- One `Generator::resume()` keeps `g_pure_compute_time ≤ g_resume_time ≤` the
next sample of a non-decreasing 64-bit clock. -/
theorem resume_keeps_nesting (clk : Nat → Nat) (hmono : Monotone clk)
    (hb : ∀ i, clk i < U64) (w : World) (g : Generator)
    (hPR : w.g_pure_compute_time ≤ w.g_resume_time) (hR : w.g_resume_time ≤ clk w.tick) :
    (Generator.resume clk w g).1.1.g_pure_compute_time
        ≤ (Generator.resume clk w g).1.1.g_resume_time ∧
      (Generator.resume clk w g).1.1.g_resume_time
        ≤ clk (Generator.resume clk w g).1.1.tick := by
  have h01 : clk w.tick ≤ clk (w.tick + 1) := hmono (by omega)
  have h12 : clk (w.tick + 1) ≤ clk (w.tick + 1 + 1) := hmono (by omega)
  have h23 : clk (w.tick + 1 + 1) ≤ clk (w.tick + 1 + 1 + 1) := hmono (by omega)
  have h34 : clk (w.tick + 1 + 1 + 1) ≤ clk (w.tick + 1 + 1 + 1 + 1) := hmono (by omega)
  have hyield := nested_window w.g_pure_compute_time w.g_resume_time (clk w.tick)
    (clk (w.tick + 1)) (clk (w.tick + 1 + 1)) (clk (w.tick + 1 + 1 + 1)) h01 h12 h23
    (hb _) hPR hR
  have hfinal := empty_window w.g_pure_compute_time w.g_resume_time (clk w.tick)
    (clk (w.tick + 1)) h01 (hb _) hPR hR
  rcases g with ⟨_ | f⟩
  · simpa [Generator.resume] using ⟨hPR, hR⟩
  · rcases f with ⟨n, c, i, v, cs, p⟩
    cases p
    · by_cases hc : (0 : Int) < c
      · simp only [Generator.resume, GenFrame.done, fib_generator_body, fib_generator_loop, now,
          hc, Bool.not_false, if_true]
        exact ⟨hyield.1, hyield.2.trans h34⟩
      · simp only [Generator.resume, GenFrame.done, fib_generator_body, fib_generator_loop, now,
          hc, Bool.not_false, if_true, if_false]
        exact ⟨hfinal.1, hfinal.2.trans h12⟩
    · by_cases hc : i + 1 < c
      · simp only [Generator.resume, GenFrame.done, fib_generator_body, fib_generator_loop, now,
          hc, Bool.not_false, if_true]
        exact ⟨hyield.1, hyield.2.trans h34⟩
      · simp only [Generator.resume, GenFrame.done, fib_generator_body, fib_generator_loop, now,
          hc, Bool.not_false, if_true, if_false]
        exact ⟨hfinal.1, hfinal.2.trans h12⟩
    · simpa [Generator.resume, GenFrame.done] using ⟨hPR, hR⟩

theorem resumes_keep_nesting (clk : Nat → Nat) (hmono : Monotone clk)
    (hb : ∀ i, clk i < U64) (k : Nat) (s : World × Generator)
    (hPR : s.1.g_pure_compute_time ≤ s.1.g_resume_time)
    (hR : s.1.g_resume_time ≤ clk s.1.tick) :
    (resumes clk k s).1.g_pure_compute_time ≤ (resumes clk k s).1.g_resume_time ∧
      (resumes clk k s).1.g_resume_time ≤ clk (resumes clk k s).1.tick := by
  induction k with
  | zero => exact ⟨hPR, hR⟩
  | succ k ih =>
    rw [resumes_succ]
    exact resume_keeps_nesting clk hmono hb _ _ ih.1 ih.2

/-- One iteration of the loop of `test_coroutines` keeps
`total_pure_compute_time ≤ total_resume_time ≤` the next sample. -/
theorem step_keeps_nesting (clk : Nat → Nat) (hmono : Monotone clk)
    (hb : ∀ i, clk i < U64) (n : Int) (s : CoroLoop)
    (hPR : s.total_pure_compute_time ≤ s.total_resume_time)
    (hR : s.total_resume_time ≤ clk s.w.tick) :
    (test_coroutines_step clk n s).total_pure_compute_time
        ≤ (test_coroutines_step clk n s).total_resume_time ∧
      (test_coroutines_step clk n s).total_resume_time
        ≤ clk (test_coroutines_step clk n s).w.tick := by
  have h02 : clk s.w.tick ≤ clk (s.w.tick + 1 + 1) := hmono (by omega)
  have h23 : clk (s.w.tick + 1 + 1) ≤ clk (s.w.tick + 1 + 1 + 1) := hmono (by omega)
  have h34 : clk (s.w.tick + 1 + 1 + 1) ≤ clk (s.w.tick + 1 + 1 + 1 + 1) := hmono (by omega)
  have h45 : clk (s.w.tick + 1 + 1 + 1 + 1) ≤ clk (s.w.tick + 1 + 1 + 1 + 1 + 1) :=
    hmono (by omega)
  have h58 : clk (s.w.tick + 1 + 1 + 1 + 1 + 1)
      ≤ clk (s.w.tick + 1 + 1 + 1 + 1 + 1 + 1 + 1 + 1) := hmono (by omega)
  have hwin := nested_window s.total_pure_compute_time s.total_resume_time
    (clk (s.w.tick + 1 + 1)) (clk (s.w.tick + 1 + 1 + 1)) (clk (s.w.tick + 1 + 1 + 1 + 1))
    (clk (s.w.tick + 1 + 1 + 1 + 1 + 1)) h23 h34 h45 (hb _) hPR (hR.trans h02)
  simp only [test_coroutines_step, fib_task, now, Task.resume, TaskFrame.done, fib_task_body,
    Task.destroy, Bool.not_false, if_true]
  exact ⟨hwin.1, hwin.2.trans h58⟩

theorem loop_keeps_nesting (clk : Nat → Nat) (hmono : Monotone clk)
    (hb : ∀ i, clk i < U64) (n : Int) (k : Nat) (s : CoroLoop)
    (hPR : s.total_pure_compute_time ≤ s.total_resume_time)
    (hR : s.total_resume_time ≤ clk s.w.tick) :
    (test_coroutines_loop clk n k s).total_pure_compute_time
        ≤ (test_coroutines_loop clk n k s).total_resume_time ∧
      (test_coroutines_loop clk n k s).total_resume_time
        ≤ clk (test_coroutines_loop clk n k s).w.tick := by
  induction k generalizing s with
  | zero => exact ⟨hPR, hR⟩
  | succ k ih =>
    have h := step_keeps_nesting clk hmono hb n s hPR hR
    exact ih (test_coroutines_step clk n s) h.1 h.2

/-- C8: with a cycle clock whose 64-bit samples are non-decreasing, in both
coroutine drivers the accumulated resume time is at least the accumulated
pure-compute time where switch overhead is computed (`test_coroutines`:
`total_resume_time ≥ total_pure_compute_time`; `test_coroutines_yield`:
`g_resume_time ≥ g_pure_compute_time`), so the unsigned subtraction does not
wrap: switch overhead plus compute time is exactly resume time.  No sum
overflows, because every sum stays below the latest sample. -/
theorem resume_time_covers_pure_compute_time (clk : Nat → Nat) (hmono : Monotone clk)
    (hb : ∀ i, clk i < U64) (w : World) (n count : Int) :
    ((test_coroutines clk w n count).1.total_pure_compute_time
          ≤ (test_coroutines clk w n count).1.total_resume_time ∧
        (test_coroutines clk w n count).1.total_switch_overhead
            + (test_coroutines clk w n count).1.total_pure_compute_time
          = (test_coroutines clk w n count).1.total_resume_time) ∧
      ((test_coroutines_yield clk w n count).atReport.g_pure_compute_time
          ≤ (test_coroutines_yield clk w n count).atReport.g_resume_time ∧
        (test_coroutines_yield clk w n count).report.total_switch_overhead
            + (test_coroutines_yield clk w n count).report.pure_compute_time
          = (test_coroutines_yield clk w n count).report.resume_time) := by
  constructor
  · have h := fun s0 h1 h2 => loop_keeps_nesting clk hmono hb n count.toNat s0 h1 h2
    simp only [test_coroutines, now]
    have h' := h
      { w := { tick := w.tick + 1,
               g_coro_creation_overhead := 0,
               g_coro_destruction_overhead := 0,
               g_coro_count := 0,
               g_last_pure_compute_time := w.g_last_pure_compute_time,
               g_resume_time := w.g_resume_time,
               g_yield_count := w.g_yield_count,
               g_resume_count := w.g_resume_count,
               g_gen_creation_overhead := w.g_gen_creation_overhead,
               g_gen_destruction_overhead := w.g_gen_destruction_overhead,
               g_pure_compute_time := w.g_pure_compute_time },
        total_resume_time := 0, total_pure_compute_time := 0 }
      (Nat.le_refl 0) (Nat.zero_le _)
    refine ⟨h'.1, ?_⟩
    rw [sub64_of_le _ _ h'.1 (lt_of_le_of_lt h'.2 (hb _))]
    exact Nat.sub_add_cancel h'.1
  · have h := fun s0 h1 h2 => resumes_keep_nesting clk hmono hb count.toNat s0 h1 h2
    simp only [test_coroutines_yield, now]
    have h' := h
      (fib_generator clk
        { tick := w.tick + 1,
          g_coro_creation_overhead := w.g_coro_creation_overhead,
          g_coro_destruction_overhead := w.g_coro_destruction_overhead,
          g_coro_count := w.g_coro_count,
          g_last_pure_compute_time := w.g_last_pure_compute_time,
          g_resume_time := 0,
          g_yield_count := 0,
          g_resume_count := 0,
          g_gen_creation_overhead := 0,
          g_gen_destruction_overhead := 0,
          g_pure_compute_time := 0 } n count)
      (by simp [fib_generator, now]) (by simp [fib_generator, now])
    refine ⟨h'.1, ?_⟩
    rw [sub64_of_le _ _ h'.1 (lt_of_le_of_lt h'.2 (hb _))]
    exact Nat.sub_add_cancel h'.1

/-- C8 (witness): a clock advancing 5 ticks per sample up to 5000, workload
input 5, batch size 3, in both drivers. -/
theorem resume_time_covers_pure_compute_time_witness :
    (test_coroutines (fun i => min (5 * i) 5000) World.start 5 3).1.total_pure_compute_time
        ≤ (test_coroutines (fun i => min (5 * i) 5000) World.start 5 3).1.total_resume_time ∧
      (test_coroutines_yield (fun i => min (5 * i) 5000) World.start 5 3).atReport.g_pure_compute_time
        ≤ (test_coroutines_yield (fun i => min (5 * i) 5000) World.start 5 3).atReport.g_resume_time :=
  ⟨(resume_time_covers_pure_compute_time (fun i => min (5 * i) 5000)
      (fun a b h => by simp only; omega) (fun i => by simp only [U64]; omega)
      World.start 5 3).1.1,
   (resume_time_covers_pure_compute_time (fun i => min (5 * i) 5000)
      (fun a b h => by simp only; omega) (fun i => by simp only [U64]; omega)
      World.start 5 3).2.1⟩

/-! ## Throughput against average time per task -/

theorem avg_ns_defined (T N : Nat) (h1 : 1 ≤ N) (hN : (N : Int) ≤ 2147483647) :
    test_coroutines_avg_ns T N = some (to_ns (T / N)) := by
  have hne : N ≠ 0 := by omega
  simp [test_coroutines_avg_ns, div64, toU64_natCast N hN, hne]

theorem product_closed_form (T N : Nat) (hT : 0 < T) :
    test_coroutines_throughput T N * to_ns (T / N) / 1000000000
      = ((N * (T / N) : Nat) : ℚ) / T := by
  have hT' : (T : ℚ) ≠ 0 := by exact_mod_cast hT.ne'
  simp only [test_coroutines_throughput, to_ns, CPU_FREQUENCY_GHZ]
  push_cast
  field_simp
  ring

/-- C9 (counterexample): with 3 total ticks and batch size 2 the average is
`to_ns(3 / 2) = to_ns(1) = 5/14` ns, and throughput × average / 1e9 is 2/3, not
1; the average times the batch size is not `to_ns(3)`. -/
theorem throughput_times_avg_not_one :
    test_coroutines_avg_ns 3 2 = some (5 / 14) ∧
      test_coroutines_throughput 3 2 * (5 / 14) / 1000000000 = 2 / 3 ∧
      test_coroutines_throughput 3 2 * (5 / 14) / 1000000000 ≠ 1 ∧
      (5 / 14 : ℚ) * 2 ≠ to_ns 3 := by
  refine ⟨?_, ?_, ?_, ?_⟩
  · have h := avg_ns_defined 3 2 (by decide) (by decide)
    rw [show ((2 : Int)) = ((2 : Nat) : Int) from rfl, h]
    norm_num [to_ns, CPU_FREQUENCY_GHZ]
  · norm_num [test_coroutines_throughput, to_ns, CPU_FREQUENCY_GHZ]
  · norm_num [test_coroutines_throughput, to_ns, CPU_FREQUENCY_GHZ]
  · norm_num [to_ns, CPU_FREQUENCY_GHZ]

/-- C9 (amended): for a batch size `N ≥ 1` and a positive total tick count `T`,
with `avg = to_ns(T / N)` (unsigned integer division) and
`throughput = N * 1e9 / to_ns(T)` in exact arithmetic,
`throughput * avg / 1e9 = N * (T / N) / T ≤ 1`, that is
`avg * N = to_ns(T - T % N)`; the product is exactly 1 if and only if `N`
divides `T`. -/
theorem throughput_times_avg_le_one (T N : Nat) (h1 : 1 ≤ N) (hN : (N : Int) ≤ 2147483647)
    (hT : 0 < T) :
    test_coroutines_avg_ns T N = some (to_ns (T / N)) ∧
      test_coroutines_throughput T N * to_ns (T / N) / 1000000000
        = ((N * (T / N) : Nat) : ℚ) / T ∧
      test_coroutines_throughput T N * to_ns (T / N) / 1000000000 ≤ 1 ∧
      (test_coroutines_throughput T N * to_ns (T / N) / 1000000000 = 1 ↔ N ∣ T) ∧
      to_ns (T / N) * N = to_ns (T - T % N) := by
  have hT' : (0 : ℚ) < T := by exact_mod_cast hT
  have hle : N * (T / N) ≤ T := Nat.mul_div_le T N
  refine ⟨avg_ns_defined T N h1 hN, product_closed_form T N hT, ?_, ?_, ?_⟩
  · rw [product_closed_form T N hT, div_le_one hT']
    exact_mod_cast hle
  · rw [product_closed_form T N hT, div_eq_one_iff_eq hT'.ne']
    constructor
    · intro h
      have h' : N * (T / N) = T := by exact_mod_cast h
      exact ⟨T / N, h'.symm⟩
    · intro h
      have h' : N * (T / N) = T := Nat.mul_div_cancel' h
      exact_mod_cast h'
  · have hsub : T - T % N = T / N * N := by
      have := Nat.div_add_mod T N
      rw [Nat.mul_comm] at this
      omega
    rw [hsub]
    simp only [to_ns]
    push_cast
    ring

/-- C9 (witness): 3 total ticks, batch size 2. -/
theorem throughput_times_avg_le_one_witness :
    (1 ≤ 2 ∧ 0 < 3) ∧
      test_coroutines_throughput 3 (2 : Nat) * to_ns (3 / 2) / 1000000000 ≤ 1 ∧
      to_ns (3 / 2) * (2 : Nat) = to_ns (3 - 3 % 2) :=
  ⟨⟨by decide, by decide⟩,
   (throughput_times_avg_le_one 3 2 (by decide) (by decide) (by decide)).2.2.1,
   (throughput_times_avg_le_one 3 2 (by decide) (by decide) (by decide)).2.2.2.2⟩

end Coroutine3

namespace Coroutine2

/-- Closed form of the frame of `iota(s)` after `k + 1` resumes. -/
theorem resumeN_iota (s k : Nat) :
    resumeN (k + 1) (iota s) =
      some { n := (s + 1234 * (k + 1)) % U32,
             current_value := some ((s + 1234 * (k + 1)) % U32), point := .yielded } := by
  induction k with
  | zero =>
    simp only [resumeN, iota, Option.bind, Frame.resume]
    simp [U32, Nat.mod_add_mod]
  | succ k ih =>
    rw [resumeN, ih]
    simp only [Option.bind, Frame.resume]
    have h : ((s + 1234 * (k + 1)) % U32 + 1234) % U32 = (s + 1234 * (k + 1 + 1)) % U32 := by
      unfold U32
      omega
    rw [h]

theorem nthValue_closed (s k : Nat) : nthValue s k = some ((s + 1234 * k) % U32) := by
  cases k with
  | zero => simp [nthValue]
  | succ k => simp [nthValue, resumeN_iota]

/-- C5 (counterexample): the unsigned step wraps.  Starting at 4294967295 the
first value is 1233, not the start plus 1234; starting at 0 the 3480525-th
value is 554, not 1234 * 3480525. -/
theorem iota_step_wraps :
    (nthValue 4294967295 0 = some 4294967295 ∧ nthValue 4294967295 1 = some 1233 ∧
        1233 ≠ 4294967295 + 1234) ∧
      (nthValue 0 3480525 = some 554 ∧ 554 ≠ 1234 * 3480525) := by
  refine ⟨⟨?_, ?_, by decide⟩, ?_, by decide⟩
  · rw [nthValue_closed]; decide
  · rw [nthValue_closed]; decide
  · rw [nthValue_closed]; decide

/-- C5 (amended): for the unbounded sequence `iota(s)` the `(k+1)`-th produced
value equals the `k`-th plus 1234 modulo 2^32 (the 0-th being the start), that
is `(s + 1234 * k) mod 2^32` for the `k`-th; starting at 0 the `k`-th value is
`1234 * k` for `1 ≤ k ≤ 3480524`; and the sequence never reaches exhaustion:
after every number of resumes the frame exists and is not done. -/
theorem iota_step_mod_2_32 (s k : Nat) :
    nthValue s (k + 1) = (nthValue s k).map (fun v => (v + 1234) % U32) ∧
      nthValue s k = some ((s + 1234 * k) % U32) ∧
      (1 ≤ k → k ≤ 3480524 → nthValue 0 k = some (1234 * k)) ∧
      (resumeN k (iota s)).map Frame.done = some false := by
  refine ⟨?_, nthValue_closed s k, ?_, ?_⟩
  · rw [nthValue_closed, nthValue_closed]
    show some ((s + 1234 * (k + 1)) % U32) = some (((s + 1234 * k) % U32 + 1234) % U32)
    exact congrArg some (by unfold U32; omega)
  · intro _ hk
    rw [nthValue_closed]
    exact congrArg some (by unfold U32; omega)
  · cases k with
    | zero => simp [resumeN, iota, Frame.done]
    | succ k => simp [resumeN_iota, Frame.done]

/-- C5 (witness): starting at 0, the fifth value is 1234 * 5. -/
theorem iota_step_mod_2_32_witness :
    (1 ≤ 5 ∧ 5 ≤ 3480524) ∧ nthValue 0 5 = some (1234 * 5) :=
  ⟨⟨by decide, by decide⟩, (iota_step_mod_2_32 0 5).2.2.1 (by decide) (by decide)⟩

/-- C6: the illustrative consumer (range-for over `iota(0)`, breaking when the
value exceeds 5000) prints exactly 1234, 2468, 3702, 4936, 6170 in that order
and stops, having resumed the sequence exactly five times; five loop passes are
needed, and any larger budget gives the same outcome. -/
theorem main_prints_five_values (fuel : Nat) :
    main (fuel + 5) = .finished [1234, 2468, 3702, 4936, 6170] 5 ∧
      main 4 = .outOfFuel := by
  constructor
  · simp [main, begin_, end_, Iterator.ctor, iota, Frame.resume, Frame.done, main_loop,
      Iterator.ne, Iterator.deref, Iterator.next, U32]
  · decide

end Coroutine2
